import Mathlib

/-!
Verification development for the comment-sentiment pipeline
(src/app/sentiment/analyzer.py and src/app/aggregate/summarizer.py).

Conventions of the shallow embedding:
* Python floats are modelled as exact rationals (`ℚ`).
* Python strings are Lean `String`s; `p in t` (substring test) is `containsSub t p`;
  `str.lower()` is `toLowerStr` (ASCII case folding — all cased characters appearing
  in the lexicons are ASCII, Japanese text is unaffected by `lower`).
* External library calls (the `re` module's `re.search`/`re.sub`, `langdetect.detect`,
  and the torch/transformers backends) are not code of this repository; they enter the
  embedding as explicit oracle parameters bundled in `Env` and `Models`.
* A loaded backend is a function `String → Option Scores` — the mapped 3-way result of
  `_single_model_inference` for that model, `none` when inference raised and was caught.
* Raising an exception is modelled with `Option`/`Except` result values.
-/

namespace YTSent

/-- A 3-way sentiment score triple, the value part of the Python dict
`{"positive": .., "negative": .., "neutral": ..}`. -/
structure Scores where
  positive : ℚ
  negative : ℚ
  neutral : ℚ
  deriving DecidableEq, Repr

/-- Result of classifying one comment: the score triple plus the `language` tag
(the Python code stores both in one dict). -/
structure SentimentResult where
  scores : Scores
  language : String
  deriving DecidableEq, Repr

/-- ASCII lower-casing of a character, the effect of Python `str.lower()` on the
character sets occurring in the lexicons (Japanese characters are uncased). -/
def lowerChar (c : Char) : Char :=
  if 'A' ≤ c ∧ c ≤ 'Z' then Char.ofNat (c.toNat + 32) else c

/-- Python `text.lower()`. -/
def toLowerStr (t : String) : String :=
  String.mk (t.toList.map lowerChar)

/-- Python `p in t`: `p` occurs as a contiguous substring of `t`. -/
def containsSub (t p : String) : Bool :=
  t.toList.tails.any (fun s => p.toList.isPrefixOf s)

/-- Lexicon `POSITIVE_WORDS` from src/app/sentiment/analyzer.py. -/
def POSITIVE_WORDS : List String := [
  "最高",
  "素晴らしい",
  "良い",
  "いい",
  "よい",
  "好き",
  "大好き",
  "面白い",
  "おもしろい",
  "オモシロイ",
  "楽しい",
  "たのしい",
  "感動",
  "感激",
  "泣いた",
  "すごい",
  "凄い",
  "ありがとう",
  "神",
  "完璧",
  "最強",
  "天才",
  "センスある",
  "かわいい",
  "可愛い",
  "きれい",
  "綺麗",
  "かっこいい",
  "上手",
  "うまい",
  "笑った",
  "爆笑",
  "ウケる",
  "尊い",
  "エモい",
  "good",
  "great",
  "nice",
  "love",
  "amazing",
  "awesome",
  "best",
  "excellent",
  "perfect",
  "fantastic",
  "wonderful",
  "beautiful",
  "cool",
  "brilliant",
  "impressive",
  "incredible",
  "👍",
  "😊",
  "😄",
  "❤",
  "🎉",
  "👏",
  "💯",
  "😍",
  "🥰",
  "✨",
  "⭐",
  "🌟",
  "🔥",
  "😎",
  "🤩",
  "💕",
  "💖"
]

/-- Lexicon `NEGATIVE_WORDS` from src/app/sentiment/analyzer.py. -/
def NEGATIVE_WORDS : List String := [
  "つまらない",
  "つまんない",
  "つまらん",
  "ひどい",
  "酷い",
  "悪い",
  "わるい",
  "嫌い",
  "きらい",
  "最悪",
  "最低",
  "ダメ",
  "だめ",
  "駄目",
  "残念",
  "がっかり",
  "退屈",
  "うざい",
  "ウザい",
  "クソ",
  "くそ",
  "糞",
  "ゴミ",
  "ごみ",
  "キモい",
  "きもい",
  "不快",
  "胸糞",
  "むかつく",
  "イライラ",
  "無理",
  "ありえない",
  "意味不明",
  "寒い",
  "イタい",
  "オワコン",
  "下手",
  "ヘタ",
  "パクリ",
  "嘘",
  "やらせ",
  "ステマ",
  "時間の無駄",
  "登録解除",
  "低評価",
  "詐欺",
  "炎上",
  "bad",
  "worst",
  "hate",
  "boring",
  "terrible",
  "awful",
  "horrible",
  "disgusting",
  "trash",
  "garbage",
  "cringe",
  "stupid",
  "dumb",
  "sucks",
  "annoying",
  "pathetic",
  "👎",
  "😢",
  "😡",
  "💢",
  "😤",
  "🤮",
  "😒",
  "💩",
  "🤬",
  "😠",
  "😾",
  "🙄",
  "😑"
]

/-- Lexicon `STRONG_NEGATIVE_PATTERNS` from src/app/sentiment/analyzer.py. -/
def STRONG_NEGATIVE_PATTERNS : List String := [
  "つまらない",
  "つまんない",
  "つまらん",
  "マジでつまらん",
  "マジつまらん",
  "クッソつまらん",
  "くっそつまらん",
  "つまんね",
  "つまんなすぎ",
  "ひどい",
  "酷い",
  "ヒドイ",
  "ひど過ぎ",
  "酷すぎ",
  "最悪",
  "サイアク",
  "最低",
  "サイテー",
  "史上最悪",
  "過去最悪",
  "クソ",
  "くそ",
  "糞",
  "クッソ",
  "くっそ",
  "クソすぎ",
  "クソ過ぎ",
  "ゴミ",
  "ごみ",
  "ゴミすぎ",
  "ゴミ動画",
  "ゴミ企画",
  "ゴミ編集",
  "うざい",
  "ウザい",
  "うぜえ",
  "ウゼエ",
  "ウザすぎ",
  "うざすぎ",
  "ウゼー",
  "キモい",
  "きもい",
  "キモすぎ",
  "キショい",
  "きしょい",
  "気持ち悪い",
  "キモ",
  "嫌い",
  "きらい",
  "キライ",
  "大嫌い",
  "だいきらい",
  "嫌いすぎ",
  "不快",
  "不愉快",
  "胸糞",
  "胸クソ",
  "むかつく",
  "ムカつく",
  "イライラ",
  "時間の無駄",
  "時間返せ",
  "○分返せ",
  "時間返して",
  "人生の無駄",
  "見なきゃよかった",
  "見るんじゃなかった",
  "後悔",
  "見て損した",
  "登録解除",
  "チャンネル登録解除",
  "登録解除しました",
  "アンチ登録",
  "低評価",
  "低評価押した",
  "通報",
  "通報しました",
  "BAD",
  "bad押した",
  "がっかり",
  "ガッカリ",
  "期待外れ",
  "期待はずれ",
  "期待裏切られた",
  "詐欺",
  "サムネ詐欺",
  "タイトル詐欺",
  "釣り",
  "釣りタイトル",
  "釣りサムネ",
  "やめて",
  "やめろ",
  "やめちまえ",
  "帰れ",
  "消えろ",
  "引退しろ",
  "辞めろ",
  "炎上",
  "問題",
  "炎上案件",
  "アウト",
  "やばい",
  "ヤバい",
  "ヤバイ",
  "やばすぎ",
  "オワコン",
  "オワコン化",
  "終わった",
  "終わってる",
  "劣化",
  "劣化した",
  "腹立つ",
  "イラつく",
  "ムカつく",
  "うんざり",
  "ウンザリ",
  "しんどい",
  "無理",
  "ムリ",
  "ありえない",
  "あり得ない",
  "意味不明",
  "理解不能",
  "寒い",
  "さむい",
  "サムい",
  "痛い",
  "イタい",
  "恥ずかしい",
  "恥ずい",
  "見るに堪えない",
  "見てられない",
  "聞いてられない",
  "耐えられない",
  "ダメ",
  "だめ",
  "駄目",
  "ダメダメ",
  "だめだめ",
  "ダメすぎ",
  "下手",
  "ヘタ",
  "へた",
  "下手くそ",
  "へたくそ",
  "下手すぎ",
  "雑",
  "適当",
  "テキトー",
  "いい加減",
  "ずさん",
  "パクリ",
  "ぱくり",
  "パクった",
  "コピー",
  "二番煎じ",
  "劣化コピー",
  "嘘",
  "うそ",
  "ウソ",
  "嘘つき",
  "デマ",
  "やらせ",
  "ヤラセ",
  "ステマ",
  "死ね",
  "くたばれ",
  "殺す",
  "殺したい",
  "〇ね",
  "しね",
  "タヒね",
  "アホ",
  "あほ",
  "バカ",
  "ばか",
  "ガイジ",
  "カス",
  "かす",
  "クズ",
  "くず",
  "障害",
  "しょうがい",
  "ゲェジ",
  "ゴミクズ",
  "微妙",
  "びみょう",
  "ビミョー",
  "微妙すぎ",
  "なんか違う",
  "コレジャナイ",
  "これじゃない",
  "草生える",
  "草も生えない",
  "草枯れる",
  "は？",
  "はぁ？",
  "え？",
  "えぇ...",
  "うーん",
  "なにこれ",
  "何これ",
  "なんだこれ",
  "見る価値なし",
  "時間泥棒",
  "金返せ",
  "案件",
  "案件臭",
  "PR臭",
  "宣伝臭",
  "再生数稼ぎ",
  "金儲け",
  "収益化",
  "飽きた",
  "あきた",
  "飽きてきた",
  "冷めた",
  "さめた",
  "冷める",
  "滑ってる",
  "スベってる",
  "すべってる",
  "滑り散らかし",
  "ワンパターン",
  "マンネリ",
  "いつもと同じ",
  "手抜き",
  "手ぬき",
  "やっつけ",
  "やる気ない",
  "やる気なさすぎ",
  "やる気感じない",
  "bad",
  "worst",
  "terrible",
  "awful",
  "horrible",
  "disgusting",
  "hate",
  "waste of time",
  "garbage",
  "trash",
  "cringe",
  "cringey",
  "creepy",
  "boring",
  "stupid",
  "dumb",
  "sucks",
  "shit",
  "bullshit",
  "pathetic",
  "lame",
  "annoying",
  "irritating",
  "disappointing",
  "dislike",
  "unsubscribed",
  "clickbait",
  "fake",
  "scam",
  "meh",
  "mediocre",
  "overrated",
  "overhyped",
  "👎",
  "😡",
  "💢",
  "😤",
  "🤮",
  "😒",
  "💩",
  "🤬",
  "😠",
  "😾",
  "🙄",
  "😑",
  "😐",
  "😓",
  "😰",
  "😨",
  "😱",
  "🤯",
  "😩",
  "😫"
]

/-- Lexicon `SARCASM_PATTERNS` from src/app/sentiment/analyzer.py. -/
def SARCASM_PATTERNS : List String := [
  "さすが.*[（(]棒[)）]",
  "すごい.*[（(]棒[)）]",
  "素晴らしい.*[（(]棒[)）]",
  "[（(]棒[)）]",
  "[（(]棒読み[)）]",
  "[（(]白目[)）]",
  "[（(]失笑[)）]",
  "[（(]苦笑[)）]",
  "[（(]呆れ[)）]",
  "[（(]あきれ[)）]",
  "[（(]笑[)）](?!.*www)",
  "[（(]爆笑[)）](?!.*www)",
  "[（(]真顔[)）]",
  "[（(]遠い目[)）]",
  "[（(]目が死んでる[)）]",
  "さすがですね",
  "すごいですね",
  "いいですね",
  "素晴らしいですね",
  "そうですね",
  "そうなんだ",
  "へえー",
  "ふーん",
  "へー",
  "ほー",
  "なるほど",
  "なるほどね",
  "そっかー",
  "そうかー",
  "分かりました",
  "わかりました",
  "理解しました",
  "最高ですね[!！]\x7b2,\x7d",
  "神[!！]\x7b3,\x7d",
  "完璧[!！]\x7b3,\x7d",
  "さすが[!！]\x7b2,\x7d",
  "すばらしい[!！]\x7b3,\x7d",
  "さすがだわ",
  "お見事",
  "流石だわ",
  "参りました",
  "降参",
  "やりますね",
  "やるなあ",
  "相変わらず",
  "いつも通り",
  "予想通り",
  "想定内",
  "期待を裏切らない"
]

/-- Lexicon `RHETORICAL_PATTERNS` from src/app/sentiment/analyzer.py. -/
def RHETORICAL_PATTERNS : List String := [
  "これが.*[?？]",
  "この.*が.*[?？]",
  "こんなの.*[?？]",
  "何が.*[?？]",
  "どこが.*[?？]",
  "誰が.*[?？]",
  "いつ.*[?？]",
  "どうして.*[?？]",
  "なぜ.*[?？]",
  "なんで.*[?？]",
  "これが面白いの",
  "これが面白い？",
  "これが面白いの？",
  "これ面白い？",
  "これがいいの",
  "これがいいの？",
  "これが良いの？",
  "これ良い？",
  "何が良いの",
  "何がいいの",
  "何が面白いの",
  "何がおもしろいの",
  "どこが面白い",
  "どこがいい",
  "どこが良い",
  "どこがすごい",
  "どこが神",
  "何が神",
  "これが神",
  "どこが最高",
  "何が最高",
  "どこがかわいい",
  "何がかわいい",
  "どこがいいの",
  "誰が見るの",
  "誰得",
  "需要ある？",
  "需要あるの？",
  "マジで言ってる？",
  "まじで言ってる？",
  "本気で言ってる？",
  "正気か？",
  "正気？",
  "冗談だよね？",
  "ネタだよね？",
  "really?",
  "seriously?",
  "are you serious?",
  "is this good?",
  "you serious?",
  "for real?",
  "are you kidding?",
  "what is this?",
  "what the hell?",
  "why?"
]

/-- Lexicon `STRONG_POSITIVE_PATTERNS` from src/app/sentiment/analyzer.py. -/
def STRONG_POSITIVE_PATTERNS : List String := [
  "最高",
  "サイコー",
  "最高すぎ",
  "最高過ぎ",
  "史上最高",
  "過去最高",
  "神",
  "神回",
  "神動画",
  "神編集",
  "神企画",
  "神すぎ",
  "神ってる",
  "完璧",
  "パーフェクト",
  "完璧すぎ",
  "完ぺき",
  "素晴らしい",
  "すばらしい",
  "素晴らしすぎ",
  "素敵",
  "ステキ",
  "すてき",
  "最強",
  "サイキョー",
  "最強すぎ",
  "無敵",
  "ムテキ",
  "感動",
  "感動した",
  "感動的",
  "泣いた",
  "泣ける",
  "涙が出た",
  "涙出た",
  "感激",
  "じーん",
  "ジーン",
  "グッときた",
  "ぐっときた",
  "笑った",
  "爆笑",
  "ワロタ",
  "わろた",
  "ウケる",
  "うける",
  "面白すぎ",
  "楽しい",
  "たのしい",
  "タノシイ",
  "楽しすぎ",
  "楽しかった",
  "楽しめた",
  "すごい",
  "凄い",
  "スゴい",
  "すごすぎ",
  "凄すぎ",
  "スゴすぎ",
  "やばい",
  "好き",
  "すき",
  "スキ",
  "大好き",
  "だいすき",
  "ダイスキ",
  "好きすぎ",
  "愛してる",
  "大好物",
  "推せる",
  "推せます",
  "神推し",
  "ありがとう",
  "ありがとうございます",
  "サンキュー",
  "thx",
  "thanks",
  "尊い",
  "とうとい",
  "たまらん",
  "たまらない",
  "エモい",
  "えもい",
  "面白い",
  "おもしろい",
  "オモシロイ",
  "面白すぎ",
  "超面白い",
  "めっちゃ面白い",
  "かわいい",
  "可愛い",
  "カワイイ",
  "可愛すぎ",
  "かわいすぎ",
  "かわゆい",
  "きれい",
  "綺麗",
  "キレイ",
  "美しい",
  "うつくしい",
  "美人",
  "可憐",
  "かっこいい",
  "カッコいい",
  "イケメン",
  "かっこよすぎ",
  "いい",
  "良い",
  "よい",
  "いいね",
  "良いね",
  "良すぎ",
  "めっちゃいい",
  "すごくいい",
  "超いい",
  "めちゃいい",
  "めちゃくちゃいい",
  "メチャいい",
  "神回",
  "神コンテンツ",
  "名作",
  "傑作",
  "力作",
  "秀作",
  "良作",
  "天才",
  "天才的",
  "すばらしすぎる",
  "やばすぎる",
  "最高峰",
  "トップレベル",
  "ハイレベル",
  "クオリティ高い",
  "上手",
  "うまい",
  "ウマい",
  "上手い",
  "上手すぎ",
  "うますぎ",
  "天才",
  "てんさい",
  "センスある",
  "センスいい",
  "センス抜群",
  "プロ",
  "プロ級",
  "プロレベル",
  "プロフェッショナル",
  "職人",
  "職人技",
  "匠",
  "技術がすごい",
  "技術力高い",
  "応援",
  "応援してる",
  "頑張れ",
  "がんばれ",
  "ファイト",
  "ガンバ",
  "期待",
  "期待してる",
  "楽しみ",
  "楽しみにしてる",
  "待ってた",
  "ずっと待ってた",
  "待ってました",
  "まってました",
  "待望",
  "もっと見たい",
  "また見たい",
  "リピート",
  "リピしてる",
  "何度も見た",
  "毎日見てる",
  "毎回見てる",
  "ヘビロテ",
  "登録した",
  "チャンネル登録した",
  "高評価",
  "高評価した",
  "いいね押した",
  "グッドボタン",
  "グッド",
  "GOOD",
  "good",
  "共感",
  "わかる",
  "わかりみ",
  "わかりみが深い",
  "それな",
  "ほんとそれ",
  "これ",
  "これな",
  "まさにこれ",
  "同意",
  "激しく同意",
  "禿同",
  "癒される",
  "癒し",
  "癒された",
  "ほっこり",
  "元気出た",
  "元気もらった",
  "元気になった",
  "励まされた",
  "勇気もらった",
  "パワーもらった",
  "勉強になる",
  "参考になる",
  "ためになる",
  "助かる",
  "助かった",
  "中毒",
  "中毒性",
  "中毒になる",
  "ハマる",
  "はまる",
  "ハマった",
  "沼",
  "沼落ち",
  "抜け出せない",
  "やった",
  "よし",
  "いいぞ",
  "ナイス",
  "グッド",
  "グレート",
  "わーい",
  "やったー",
  "よっしゃ",
  "きたー",
  "キター",
  "キタ━",
  "amazing",
  "awesome",
  "excellent",
  "perfect",
  "fantastic",
  "wonderful",
  "great",
  "good",
  "nice",
  "beautiful",
  "gorgeous",
  "stunning",
  "love",
  "loved",
  "loved it",
  "brilliant",
  "magnificent",
  "outstanding",
  "impressive",
  "incredible",
  "unbelievable",
  "mindblowing",
  "epic",
  "cool",
  "dope",
  "fire",
  "lit",
  "best",
  "masterpiece",
  "❤",
  "💕",
  "💖",
  "💗",
  "💓",
  "💝",
  "💘",
  "😍",
  "🥰",
  "😊",
  "😄",
  "😁",
  "🤣",
  "😂",
  "🎉",
  "🎊",
  "👏",
  "👍",
  "💯",
  "✨",
  "⭐",
  "🌟",
  "💫",
  "🔥",
  "😎",
  "🤩",
  "😃",
  "😆",
  "🙌",
  "👌"
]

/-- Lexicon `NEGATION_PATTERNS` from src/app/sentiment/analyzer.py. -/
def NEGATION_PATTERNS : List String := [
  "ない",
  "なかった",
  "なくて",
  "ないな",
  "ないね",
  "ないわ",
  "ません",
  "ませんでした",
  "ぬ",
  "ん",
  "ず",
  "んだ",
  "not",
  "no",
  "never",
  "nothing",
  "don\x27t",
  "doesn\x27t",
  "didn\x27t",
  "won\x27t",
  "can\x27t",
  "couldn\x27t",
  "shouldn\x27t"
]

/-- Oracle bundle for the external library calls made by the analyzer module:
the two `re.sub` substitutions of `_preprocess_text` (URL removal, HTML-tag removal),
`re.search pattern text` as a Boolean, and `langdetect.detect`
(`Except Unit` models `LangDetectException`). -/
structure Env where
  subUrl : String → String
  subTag : String → String
  reSearch : String → String → Bool
  detect : String → Except Unit String

/-- A loaded scoring backend, as seen through `_single_model_inference`:
for each text either a mapped 3-way score triple, or `none` when inference
raised and the exception was caught. -/
abbrev Backend := String → Option Scores

/-- The module-level model slots `_ja_model_1`, `_ja_model_2`, `_multi_model`
(each together with its tokenizer and label map); `none` = not loaded or load failed. -/
structure Models where
  ja1 : Option Backend
  ja2 : Option Backend
  multi : Option Backend

/-- `_single_model_inference`: `none` when the model slot is empty, otherwise the
backend's (possibly failing) mapped output for the text. -/
def single_model_inference (m : Option Backend) (text : String) : Option Scores :=
  match m with
  | none => none
  | some f => f text

/-- The character class `[぀-ゟ゠-ヿ一-鿿]` used by
`_detect_language` (hiragana, katakana, CJK ideographs). -/
def isJapaneseChar (c : Char) : Bool :=
  (0x3040 ≤ c.toNat && c.toNat ≤ 0x309F) ||
  (0x30A0 ≤ c.toNat && c.toNat ≤ 0x30FF) ||
  (0x4E00 ≤ c.toNat && c.toNat ≤ 0x9FFF)

/-- `_detect_language`: the Japanese-script character check is authoritative;
otherwise the `langdetect` oracle decides, its failure defaulting to `"other"`. -/
def detect_language (env : Env) (text : String) : String :=
  if text.toList.any isJapaneseChar then "ja"
  else
    match env.detect text with
    | .ok code => if code = "ja" then "ja" else "other"
    | .error _ => "other"

/-- Python `text.split()`: split on whitespace, dropping empty pieces. -/
def pySplit (l : List Char) : List (List Char) :=
  (l.splitOnP (·.isWhitespace)).filter (· ≠ [])

/-- Python `str.strip()`: trim whitespace at both ends. -/
def pyStrip (l : List Char) : List Char :=
  ((l.dropWhile Char.isWhitespace).reverse.dropWhile Char.isWhitespace).reverse

/-- `_preprocess_text`: URL removal and HTML-tag removal (the two `re.sub` oracles),
whitespace normalisation `' '.join(text.split())`, final `strip()`. -/
def preprocess_text (env : Env) (text : String) : String :=
  let t1 := env.subUrl text
  let t2 := env.subTag t1
  let t3 := String.mk (List.intercalate [' '] (pySplit t2.toList))
  String.mk (pyStrip t3.toList)

/-- `_rule_based_classify`: binary rule score, `"pos"` iff the positive-word hit
count is at least the negative-word hit count. -/
def rule_based_classify (text : String) : String :=
  let text_lower := toLowerStr text
  let pos_count := POSITIVE_WORDS.countP (fun w => containsSub text_lower w || containsSub text w)
  let neg_count := NEGATIVE_WORDS.countP (fun w => containsSub text_lower w || containsSub text w)
  if neg_count ≤ pos_count then "pos" else "neg"

/-- `neg_match_count` of `_adjust_sentiment_with_rules`: hits of the strong-negative
lexicon in the text (lower-cased or raw, as in the source). -/
def strong_neg_count (text : String) : ℕ :=
  STRONG_NEGATIVE_PATTERNS.countP (fun p => containsSub (toLowerStr text) p || containsSub text p)

/-- `pos_match_count` of `_adjust_sentiment_with_rules`. -/
def strong_pos_count (text : String) : ℕ :=
  STRONG_POSITIVE_PATTERNS.countP (fun p => containsSub (toLowerStr text) p || containsSub text p)

/-- `sarcasm_match`: some sarcasm regex matches (via the `re.search` oracle). -/
def sarcasm_found (env : Env) (text : String) : Bool :=
  SARCASM_PATTERNS.any (fun p => env.reSearch p text)

/-- `rhetorical_match`: some rhetorical-question regex matches. -/
def rhetorical_found (env : Env) (text : String) : Bool :=
  RHETORICAL_PATTERNS.any (fun p => env.reSearch p text)

/-- `has_negation`: some negation word occurs in the lower-cased text. -/
def has_negation (text : String) : Bool :=
  NEGATION_PATTERNS.any (fun p => containsSub (toLowerStr text) p)

/-- `_adjust_sentiment_with_rules`: accumulate the rule corrections in source order,
clamp both accumulators to `[-0.3, 0.3]`, apply them (negative and positive slots
clamped to `[0, 1]`, neutral only floored at `0`), then renormalise when the total
is positive. -/
def adjust_sentiment_with_rules (env : Env) (text : String) (scores : Scores) : Scores :=
  let negc := strong_neg_count text
  let posc := strong_pos_count text
  let sarcasm := sarcasm_found env text
  let rhetorical := rhetorical_found env text
  let negation := has_negation text
  let na1 : ℚ := if 2 ≤ negc then 0 + 0.25 else if 1 ≤ negc then 0 + 0.15 else 0
  let pa1 : ℚ := if 2 ≤ negc then 0 - 0.25 else if 1 ≤ negc then 0 - 0.15 else 0
  let na2 := if sarcasm then na1 + 0.2 else na1
  let pa2 := if sarcasm then pa1 - 0.2 else pa1
  let na3 := if rhetorical then na2 + 0.2 else na2
  let pa3 := if rhetorical then pa2 - 0.2 else pa2
  let na4 := if 1 ≤ posc ∧ negation = true then na3 + 0.2
    else if 2 ≤ posc ∧ negation = false then na3 - 0.25
    else if 1 ≤ posc ∧ negation = false then na3 - 0.15
    else na3
  let pa4 := if 1 ≤ posc ∧ negation = true then pa3 - 0.2
    else if 2 ≤ posc ∧ negation = false then pa3 + 0.25
    else if 1 ≤ posc ∧ negation = false then pa3 + 0.15
    else pa3
  let negative_adjustment := max (min na4 0.3) (-0.3)
  let positive_adjustment := max (min pa4 0.3) (-0.3)
  let neutral_adjustment : ℚ := 0
  let cneg := max (min (scores.negative + negative_adjustment) 1) 0
  let cpos := max (min (scores.positive + positive_adjustment) 1) 0
  let cneu := max (scores.neutral + neutral_adjustment) 0
  let total := cpos + cneg + cneu
  if 0 < total then ⟨cpos / total, cneg / total, cneu / total⟩
  else ⟨cpos, cneg, cneu⟩

/-- The adjustment policy exactly as the specification words it (for claim C3):
each rule contributes independently to a positive and a negative accumulator
(≥2 negative hits ±0.25, exactly 1 hit ±0.15; sarcasm ±0.20; rhetorical ±0.20;
positive hits ≥1 with negation ±0.20 taking precedence, else positive hits ≥2 ±0.25
or exactly 1 ±0.15), the accumulators are clamped to `[-0.3, 0.3]`, applied, each of
the three slots is clamped to `[0, 1]`, and the triple is renormalised to sum 1,
being left as all zeros when the total is 0. -/
def adjust_sentiment_spec (env : Env) (text : String) (scores : Scores) : Scores :=
  let negc := strong_neg_count text
  let posc := strong_pos_count text
  let sarcasm := sarcasm_found env text
  let rhetorical := rhetorical_found env text
  let negation := has_negation text
  let negAcc : ℚ :=
    (if 2 ≤ negc then 0.25 else if negc = 1 then 0.15 else 0) +
    (if sarcasm then 0.2 else 0) +
    (if rhetorical then 0.2 else 0) +
    (if 1 ≤ posc ∧ negation = true then 0.2
     else if 2 ≤ posc ∧ negation = false then -0.25
     else if posc = 1 ∧ negation = false then -0.15
     else 0)
  let posAcc : ℚ :=
    (if 2 ≤ negc then -0.25 else if negc = 1 then -0.15 else 0) +
    (if sarcasm then -0.2 else 0) +
    (if rhetorical then -0.2 else 0) +
    (if 1 ≤ posc ∧ negation = true then -0.2
     else if 2 ≤ posc ∧ negation = false then 0.25
     else if posc = 1 ∧ negation = false then 0.15
     else 0)
  let nAdj := max (min negAcc 0.3) (-0.3)
  let pAdj := max (min posAcc 0.3) (-0.3)
  let cneg := max (min (scores.negative + nAdj) 1) 0
  let cpos := max (min (scores.positive + pAdj) 1) 0
  let cneu := max (min scores.neutral 1) 0
  let total := cpos + cneg + cneu
  if total = 0 then ⟨0, 0, 0⟩
  else ⟨cpos / total, cneg / total, cneu / total⟩

/-- The fixed rule-fallback distribution used when no backend produced a result:
`{0.6, 0.15, 0.25}` for a `"pos"` rule label, `{0.15, 0.6, 0.25}` otherwise. -/
def rule_fallback_scores (text : String) : Scores :=
  if rule_based_classify text = "pos" then ⟨0.6, 0.15, 0.25⟩ else ⟨0.15, 0.6, 0.25⟩

/-- `_pytorch_inference`: Japanese two-model ensemble (slot-wise average), single
surviving model, or rule fallback; multilingual model or rule fallback otherwise. -/
def pytorch_inference (m : Models) (text : String) (language : String) : Scores :=
  if language = "ja" then
    match single_model_inference m.ja1 text, single_model_inference m.ja2 text with
    | some r1, some r2 =>
        ⟨(r1.positive + r2.positive) / 2, (r1.negative + r2.negative) / 2,
         (r1.neutral + r2.neutral) / 2⟩
    | some r1, none => r1
    | none, some r2 => r2
    | none, none => rule_fallback_scores text
  else
    match single_model_inference m.multi text with
    | some r => r
    | none => rule_fallback_scores text

/-- `classify_comment`: empty-text short-circuit, preprocessing, empty-after-preprocess
short-circuit, language detection, model inference; the result carries the tag. -/
def classify_comment (env : Env) (m : Models) (text : String) : SentimentResult :=
  if text.toList.all Char.isWhitespace then ⟨⟨0.33, 0.33, 0.34⟩, "unknown"⟩
  else
    let processed := preprocess_text env text
    if processed = "" then ⟨⟨0.33, 0.33, 0.34⟩, "unknown"⟩
    else
      let language := detect_language env processed
      ⟨pytorch_inference m processed language, language⟩

/-- `_classify_comment_rules_only`: same short-circuits, then the rule-based base
distribution followed by rule adjustment. -/
def classify_comment_rules_only (env : Env) (text : String) : SentimentResult :=
  if text.toList.all Char.isWhitespace then ⟨⟨0.33, 0.33, 0.34⟩, "unknown"⟩
  else
    let processed := preprocess_text env text
    if processed = "" then ⟨⟨0.33, 0.33, 0.34⟩, "unknown"⟩
    else
      let language := detect_language env processed
      ⟨adjust_sentiment_with_rules env processed (rule_fallback_scores processed), language⟩

/-- Outcome the three external `from_pretrained` loads would yield, were they attempted
in a given call of `load_models`: `some b` = success producing backend `b`, `none` =
the load raised (caught; the slot is reset to `None`). -/
structure LoadOutcome where
  ja1 : Option Backend
  ja2 : Option Backend
  multi : Option Backend

/-- `load_models` as a state transition on the model slots: early return when all
three slots are populated (double-checked lock collapses to one check in this
sequential model), otherwise all three loads are (re-)attempted and overwrite the
slots. The Boolean records whether the loading section ran. -/
def load_models (oc : LoadOutcome) (s : Models) : Models × Bool :=
  if s.ja1.isSome && s.ja2.isSome && s.multi.isSome then (s, false)
  else (⟨oc.ja1, oc.ja2, oc.multi⟩, true)

/-- A comment dict, restricted to the keys the analyzer touches:
`comment.get('text', '')` and the `sentiment` field it writes. -/
structure Comment where
  text : Option String
  sentiment : Option SentimentResult

/-- `classify_comments`: run `load_models`, then either raise `RuntimeError` (all
backends unavailable, fallback flag off), score every comment rules-only (flag on),
or run the full per-comment pipeline. The result is the post-load model state, the
comment list as left by the call, and the raised error message, if any. -/
def classify_comments (env : Env) (fallback_to_rules : Bool) (oc : LoadOutcome)
    (s : Models) (comments : List Comment) :
    Models × List Comment × Option String :=
  let m := (load_models oc s).1
  let all_models_failed := m.ja1.isNone && m.ja2.isNone && m.multi.isNone
  if all_models_failed then
    if fallback_to_rules then
      (m, comments.map
            (fun c => { c with sentiment := some (classify_comment_rules_only env (c.text.getD "")) }),
       none)
    else
      (m, comments, some "全ての感情分析モデルのロードに失敗しました。")
  else
    (m, comments.map
          (fun c => { c with sentiment := some (classify_comment env m (c.text.getD "")) }),
     none)

/-- A value stored under a comment's `sentiment` key, as `aggregate_video` sees it:
either a dict (three optional slot entries) or some non-dict value, on which the
`.get` calls raise `AttributeError`. -/
inductive SentVal where
  | dict (positive negative neutral : Option ℚ)
  | nondict
  deriving DecidableEq

/-- A comment record as consumed by `aggregate_video`. -/
structure AComment where
  sentiment : Option SentVal
  deriving DecidableEq

/-- Python `round(x, 4)`, first the integer rounding (half to even). -/
def roundHalfEven (x : ℚ) : ℤ :=
  let f := ⌊x⌋
  let r := x - f
  if r < 1/2 then f
  else if 1/2 < r then f + 1
  else if Even f then f else f + 1

/-- Python `round(x, 4)` on exact rationals. -/
def round4 (x : ℚ) : ℚ := (roundHalfEven (x * 10000) : ℚ) / 10000

/-- Accumulator of the aggregation loop in `aggregate_video`. -/
structure AggAcc where
  positive_count : ℕ
  negative_count : ℕ
  other_count : ℕ
  positive_sum : ℚ
  negative_sum : ℚ
  neutral_sum : ℚ
  deriving DecidableEq

/-- One iteration of the loop in `aggregate_video`: read the three slots with
default `0` (`comment.get('sentiment', {})` then `.get(key, 0)`), accumulate the
sums, then count the dominant label with the tie rule (any tie at the maximum →
`other`). A non-dict sentiment value raises `AttributeError`. -/
def agg_step (acc : AggAcc) (c : AComment) : Except String AggAcc :=
  match c.sentiment.getD (.dict none none none) with
  | .nondict => .error "AttributeError"
  | .dict p? n? u? =>
    let pos := p?.getD 0
    let neg := n?.getD 0
    let neu := u?.getD 0
    let acc1 := { acc with positive_sum := acc.positive_sum + pos,
                           negative_sum := acc.negative_sum + neg,
                           neutral_sum := acc.neutral_sum + neu }
    let max_score := max pos (max neg neu)
    let scores_at_max := [pos, neg, neu].countP (fun s => decide (s = max_score))
    .ok <|
      if 1 < scores_at_max then { acc1 with other_count := acc1.other_count + 1 }
      else if max_score = pos then { acc1 with positive_count := acc1.positive_count + 1 }
      else if max_score = neg then { acc1 with negative_count := acc1.negative_count + 1 }
      else { acc1 with other_count := acc1.other_count + 1 }

/-- The summary record produced by `aggregate_video`. The source fields
`positive_ratio` and `negative_ratio` are named `positiveShare`/`negativeShare`
here; `video_id` and `analyzed_at` bookkeeping is omitted (no claim touches it). -/
structure Summary where
  total_comments : ℕ
  positive_count : ℕ
  negative_count : ℕ
  other_count : ℕ
  positiveShare : ℚ
  negativeShare : ℚ
  positive_score : ℚ
  negative_score : ℚ
  neutral_score : ℚ
  deriving DecidableEq

/-- `aggregate_video`: empty-batch early return, else the counting/summing loop
followed by the rounded shares and average scores. -/
def aggregate_video (comments : List AComment) : Except String Summary :=
  if comments.length = 0 then
    .ok ⟨0, 0, 0, 0, 0, 0, 0, 0, 0⟩
  else do
    let acc ← comments.foldlM agg_step ⟨0, 0, 0, 0, 0, 0⟩
    let total : ℚ := comments.length
    pure ⟨comments.length, acc.positive_count, acc.negative_count, acc.other_count,
          round4 ((acc.positive_count : ℚ) / total), round4 ((acc.negative_count : ℚ) / total),
          round4 (acc.positive_sum / total), round4 (acc.negative_sum / total),
          round4 (acc.neutral_sum / total)⟩

/-- The distribution invariant stated by the spec: all three slots in `[0, 1]` and
the slots summing to 1 within tolerance 0.01. -/
def ValidDist (s : Scores) : Prop :=
  0 ≤ s.positive ∧ s.positive ≤ 1 ∧
  0 ≤ s.negative ∧ s.negative ≤ 1 ∧
  0 ≤ s.neutral ∧ s.neutral ≤ 1 ∧
  99 / 100 ≤ s.positive + s.negative + s.neutral ∧
  s.positive + s.negative + s.neutral ≤ 101 / 100

/-- Hypothesis on the backends: every successful inference result is a valid
distribution (softmax outputs are probability vectors; the 2-class mapping places 0
in the neutral slot; both satisfy `ValidDist`). -/
def ModelsValid (m : Models) : Prop :=
  (∀ f, m.ja1 = some f → ∀ t r, f t = some r → ValidDist r) ∧
  (∀ f, m.ja2 = some f → ∀ t r, f t = some r → ValidDist r) ∧
  (∀ f, m.multi = some f → ∀ t r, f t = some r → ValidDist r)

/-! ## Theorems -/

/-- The fixed balanced distribution used by the empty-text short-circuit is valid. -/
lemma validDist_balanced : ValidDist ⟨0.33, 0.33, 0.34⟩ := by
  unfold ValidDist
  norm_num

/-- The rule-fallback distributions are valid. -/
lemma validDist_fallback (text : String) : ValidDist (rule_fallback_scores text) := by
  unfold rule_fallback_scores ValidDist
  split_ifs <;> norm_num

/-- Slot-wise averaging preserves validity. -/
lemma validDist_avg (a b : Scores) (ha : ValidDist a) (hb : ValidDist b) :
    ValidDist ⟨(a.positive + b.positive) / 2, (a.negative + b.negative) / 2,
      (a.neutral + b.neutral) / 2⟩ := by
  obtain ⟨ha1, ha2, ha3, ha4, ha5, ha6, ha7, ha8⟩ := ha
  obtain ⟨hb1, hb2, hb3, hb4, hb5, hb6, hb7, hb8⟩ := hb
  unfold ValidDist
  refine ⟨by linarith, by linarith, by linarith, by linarith, by linarith, by linarith,
    by linarith, by linarith⟩

/-- The application/renormalisation tail of the adjustment engine yields a valid
distribution (with exact sum 1) whenever the base neutral slot is positive. -/
lemma validDist_tail (p n u pA nA : ℚ) (hu0 : 0 < u) :
    ValidDist
      (if 0 < max (min (p + pA) 1) 0 + max (min (n + nA) 1) 0 + max (u + 0) 0 then
        (⟨max (min (p + pA) 1) 0 /
            (max (min (p + pA) 1) 0 + max (min (n + nA) 1) 0 + max (u + 0) 0),
          max (min (n + nA) 1) 0 /
            (max (min (p + pA) 1) 0 + max (min (n + nA) 1) 0 + max (u + 0) 0),
          max (u + 0) 0 /
            (max (min (p + pA) 1) 0 + max (min (n + nA) 1) 0 + max (u + 0) 0)⟩ : Scores)
      else ⟨max (min (p + pA) 1) 0, max (min (n + nA) 1) 0, max (u + 0) 0⟩) := by
  set cp := max (min (p + pA) 1) 0 with hcp
  set cn := max (min (n + nA) 1) 0 with hcn
  set cu := max (u + 0) 0 with hcu
  have h0p : (0 : ℚ) ≤ cp := le_max_right _ _
  have h0n : (0 : ℚ) ≤ cn := le_max_right _ _
  have hcuu : cu = u := by rw [hcu, add_zero]; exact max_eq_left hu0.le
  have h0u : (0 : ℚ) ≤ cu := by rw [hcuu]; exact hu0.le
  have hT : 0 < cp + cn + cu := by rw [hcuu]; linarith
  rw [if_pos hT]
  have hsum : cp / (cp + cn + cu) + cn / (cp + cn + cu) + cu / (cp + cn + cu) = 1 := by
    rw [div_add_div_same, div_add_div_same, div_self (ne_of_gt hT)]
  refine ⟨div_nonneg h0p hT.le, (div_le_one hT).mpr (by linarith),
    div_nonneg h0n hT.le, (div_le_one hT).mpr (by linarith),
    div_nonneg h0u hT.le, (div_le_one hT).mpr (by linarith), ?_, ?_⟩
  · rw [hsum]; norm_num
  · rw [hsum]; norm_num

/-- `_pytorch_inference` yields a valid distribution under valid backends. -/
lemma validDist_pytorch (m : Models) (text lang : String) (h : ModelsValid m) :
    ValidDist (pytorch_inference m text lang) := by
  unfold pytorch_inference
  by_cases hl : lang = "ja"
  · rw [if_pos hl]
    cases hja1 : m.ja1 with
    | none =>
      cases hja2 : m.ja2 with
      | none => simp only [single_model_inference]; exact validDist_fallback text
      | some f =>
        simp only [single_model_inference]
        cases hf : f text with
        | none => exact validDist_fallback text
        | some r => exact h.2.1 f hja2 text r hf
    | some f =>
      cases hja2 : m.ja2 with
      | none =>
        simp only [single_model_inference]
        cases hf : f text with
        | none => exact validDist_fallback text
        | some r => exact h.1 f hja1 text r hf
      | some g =>
        simp only [single_model_inference]
        cases hf : f text with
        | none =>
          cases hg : g text with
          | none => exact validDist_fallback text
          | some r => exact h.2.1 g hja2 text r hg
        | some r =>
          cases hg : g text with
          | none => exact h.1 f hja1 text r hf
          | some r' => exact validDist_avg r r' (h.1 f hja1 text r hf) (h.2.1 g hja2 text r' hg)
  · rw [if_neg hl]
    cases hmu : m.multi with
    | none => simp only [single_model_inference]; exact validDist_fallback text
    | some f =>
      simp only [single_model_inference]
      cases hf : f text with
      | none => exact validDist_fallback text
      | some r => exact h.2.2 f hmu text r hf

/-- Claim C5: for every comment whose distribution has two or more slots tied at the
maximum value, the aggregation loop counts that comment under `other_count` and never
under `positive_count` or `negative_count`; a comment with a strict neutral maximum is
also counted under `other_count`. -/
theorem C5_tie_counts_as_other (acc : AggAcc) (p n u : ℚ)
    (h : 1 < [p, n, u].countP (fun s => decide (s = max p (max n u))) ∨ (p < u ∧ n < u)) :
    ∃ acc', agg_step acc ⟨some (.dict (some p) (some n) (some u))⟩ = .ok acc' ∧
      acc'.other_count = acc.other_count + 1 ∧
      acc'.positive_count = acc.positive_count ∧
      acc'.negative_count = acc.negative_count := by
  unfold agg_step
  simp only [Option.getD_some]
  rcases h with h | ⟨hp, hn⟩
  · rw [if_pos h]
    exact ⟨_, rfl, rfl, rfl, rfl⟩
  · have hmax : max p (max n u) = u := by
      rw [max_eq_right (le_of_lt hn), max_eq_right (le_of_lt hp)]
    have hcount : [p, n, u].countP (fun s => decide (s = max p (max n u))) = 1 := by
      simp only [hmax, List.countP_cons, List.countP_nil]
      simp [ne_of_lt hp, ne_of_lt hn]
    rw [if_neg (by omega), hmax, if_neg (ne_of_gt hp), if_neg (ne_of_gt hn)]
    exact ⟨_, rfl, rfl, rfl, rfl⟩

/-- Witness for C5 at the tied distribution `(1, 1, 0)`. -/
theorem C5_witness :
    ∃ acc', agg_step ⟨0, 0, 0, 0, 0, 0⟩ ⟨some (.dict (some 1) (some 1) (some 0))⟩ = .ok acc' ∧
      acc'.other_count = 0 + 1 ∧ acc'.positive_count = 0 ∧ acc'.negative_count = 0 := by
  have h := C5_tie_counts_as_other ⟨0, 0, 0, 0, 0, 0⟩ 1 1 0
    (Or.inl (by
      have h1 : max (1 : ℚ) (max 1 0) = 1 := by
        rw [max_eq_left (by norm_num : (0:ℚ) ≤ 1), max_self]
      simp only [h1, List.countP_cons, List.countP_nil]
      norm_num))
  simpa using h

/-- Claim C10 counterexample: a comment whose `sentiment` field holds a non-dict value
makes the aggregator raise `AttributeError` (the claim asserts it never raises). -/
theorem C10_counterexample :
    aggregate_video [⟨some .nondict⟩] = .error "AttributeError" := rfl

/-- Claim C10 amended: for every comment whose sentiment field is missing or is a
dict lacking any of the three slot keys, the aggregation loop reads each missing
slot as 0 and never raises; a comment with no sentiment field is counted under
`other_count` and contributes 0 to every average-score sum. (The original claim
also covered non-dict sentiment values, on which the code raises `AttributeError`.) -/
theorem C10_missing_sentiment_defaults (acc : AggAcc) (c : AComment)
    (h : c.sentiment = none ∨ ∃ po no nu, c.sentiment = some (.dict po no nu)) :
    (∃ acc', agg_step acc c = .ok acc') ∧
    (∀ po no nu, c.sentiment = some (.dict po no nu) →
       agg_step acc c =
         agg_step acc ⟨some (.dict (some (po.getD 0)) (some (no.getD 0)) (some (nu.getD 0)))⟩) ∧
    (c.sentiment = none →
       agg_step acc c = .ok { acc with other_count := acc.other_count + 1 }) := by
  have hzero : ∀ a : AggAcc,
      agg_step a ⟨none⟩ = .ok { a with other_count := a.other_count + 1 } := by
    intro a
    unfold agg_step
    simp only [Option.getD_none, Option.getD_some]
    have hmax : max (0 : ℚ) (max 0 0) = 0 := by rw [max_self, max_self]
    have hcount : [(0 : ℚ), 0, 0].countP (fun s => decide (s = max 0 (max 0 0))) = 3 := by
      simp [hmax]
    rw [if_pos (by omega : 1 < [(0 : ℚ), 0, 0].countP (fun s => decide (s = max 0 (max 0 0))))]
    cases a
    simp
  refine ⟨?_, ?_, ?_⟩
  · rcases h with h | ⟨po, no, nu, h⟩
    · obtain ⟨c1⟩ := c
      simp only at h
      subst h
      exact ⟨_, hzero acc⟩
    · obtain ⟨c1⟩ := c
      simp only at h
      subst h
      exact ⟨_, rfl⟩
  · intro po no nu hc
    obtain ⟨c1⟩ := c
    simp only at hc
    subst hc
    rfl
  · intro hc
    obtain ⟨c1⟩ := c
    simp only at hc
    subst hc
    exact hzero acc

/-- Witness for C10's amended theorem at a comment with no sentiment field. -/
theorem C10_witness :
    agg_step ⟨0, 0, 0, 0, 0, 0⟩ ⟨none⟩ =
      .ok { (⟨0, 0, 0, 0, 0, 0⟩ : AggAcc) with other_count := 0 + 1 } := by
  exact (C10_missing_sentiment_defaults ⟨0, 0, 0, 0, 0, 0⟩ ⟨none⟩ (Or.inl rfl)).2.2 rfl

/-- Claim C2 counterexample: starting from the unloaded state, a first call of
`load_models` in which backend 1's load fails records it unavailable; a second call
then re-runs the loading section (`attempted = true`), re-attempting the failed
backend — the claim asserts no subsequent call re-attempts it. -/
theorem C2_counterexample :
    (load_models ⟨some (fun _ => none), some (fun _ => none), some (fun _ => none)⟩
       (load_models ⟨none, some (fun _ => none), some (fun _ => none)⟩ ⟨none, none, none⟩).1).2
      = true := rfl

/-- Claim C2 amended: `load_models` skips loading (early-returns, leaving the state
unchanged) exactly when all three backends are currently loaded; once a call ends
with all three loaded, no later call re-attempts any load. But after a call in which
some backend's load failed, the next call re-runs the loading section, re-attempting
every backend, including the failed one. -/
theorem C2_load_retry_policy (oc : LoadOutcome) (s : Models) :
    ((load_models oc s).2 = false ↔
       (s.ja1.isSome = true ∧ s.ja2.isSome = true ∧ s.multi.isSome = true)) ∧
    ((load_models oc s).2 = false → (load_models oc s).1 = s) ∧
    (oc.ja1.isSome = true → oc.ja2.isSome = true → oc.multi.isSome = true →
       ∀ oc', (load_models oc' (load_models oc s).1).2 = false ∧
         (load_models oc' (load_models oc s).1).1 = (load_models oc s).1) := by
  by_cases h : (s.ja1.isSome && s.ja2.isSome && s.multi.isSome) = true
  · have hload : load_models oc s = (s, false) := by simp [load_models, h]
    have h' := h
    simp only [Bool.and_eq_true] at h'
    refine ⟨by simp [hload, h'.1.1, h'.1.2, h'.2], by simp [hload], fun h1 h2 h3 oc' => ?_⟩
    rw [hload]
    simp [load_models, h]
  · have hb : (s.ja1.isSome && s.ja2.isSome && s.multi.isSome) = false :=
      Bool.eq_false_iff.mpr h
    have hload : load_models oc s = (⟨oc.ja1, oc.ja2, oc.multi⟩, true) := by
      simp [load_models, hb]
    refine ⟨?_, ?_, fun h1 h2 h3 oc' => ?_⟩
    · rw [hload]
      constructor
      · intro hh; exact absurd hh (by simp)
      · rintro ⟨e1, e2, e3⟩
        rw [e1, e2, e3] at hb
        simp at hb
    · rw [hload]
      intro hh
      exact absurd hh (by simp)
    · rw [hload]
      simp [load_models, h1, h2, h3]

/-- Witness for C2's amended theorem: after a call in which all three loads succeed,
the next call does not re-attempt loading. -/
theorem C2_witness :
    (load_models ⟨none, none, none⟩
       (load_models ⟨some (fun _ => none), some (fun _ => none), some (fun _ => none)⟩
          ⟨none, none, none⟩).1).2 = false := by
  exact ((C2_load_retry_policy
    ⟨some (fun _ => none), some (fun _ => none), some (fun _ => none)⟩
    ⟨none, none, none⟩).2.2 rfl rfl rfl ⟨none, none, none⟩).1

/-- Claim C6: `classify_comments` raises if and only if all three backends are
unavailable after loading and the fallback-to-rules flag is false; when it raises,
the comment batch is returned untouched (no partial results, no sentiment attached);
when all backends are unavailable and the flag is true, every comment is scored by
the rules-only substitute (which includes rule adjustment). -/
theorem C6_batch_failure_atomic (env : Env) (flag : Bool) (oc : LoadOutcome)
    (s : Models) (comments : List Comment) :
    ((classify_comments env flag oc s comments).2.2.isSome = true ↔
       ((load_models oc s).1.ja1 = none ∧ (load_models oc s).1.ja2 = none ∧
        (load_models oc s).1.multi = none ∧ flag = false)) ∧
    ((classify_comments env flag oc s comments).2.2.isSome = true →
       (classify_comments env flag oc s comments).2.1 = comments) ∧
    ((load_models oc s).1.ja1 = none → (load_models oc s).1.ja2 = none →
     (load_models oc s).1.multi = none → flag = true →
       (classify_comments env flag oc s comments).2.1 =
         comments.map (fun c =>
           { c with sentiment := some (classify_comment_rules_only env (c.text.getD "")) })) := by
  by_cases hall : ((load_models oc s).1.ja1.isNone && (load_models oc s).1.ja2.isNone &&
      (load_models oc s).1.multi.isNone) = true
  · have h3 : (load_models oc s).1.ja1 = none ∧ (load_models oc s).1.ja2 = none ∧
        (load_models oc s).1.multi = none := by
      simp only [Bool.and_eq_true, Option.isNone_iff_eq_none] at hall
      exact ⟨hall.1.1, hall.1.2, hall.2⟩
    cases flag
    · have hcc : classify_comments env false oc s comments =
          ((load_models oc s).1, comments,
            some "全ての感情分析モデルのロードに失敗しました。") := by
        simp only [classify_comments, hall]
        rfl
      refine ⟨by simp [hcc, h3.1, h3.2.1, h3.2.2], by simp [hcc], fun _ _ _ hf => ?_⟩
      exact absurd hf (by simp)
    · have hcc : classify_comments env true oc s comments =
          ((load_models oc s).1,
           comments.map (fun c =>
             { c with sentiment := some (classify_comment_rules_only env (c.text.getD "")) }),
           none) := by
        simp only [classify_comments, hall]
        rfl
      refine ⟨by simp [hcc], by simp [hcc], fun _ _ _ _ => by simp [hcc]⟩
  · have hb : ((load_models oc s).1.ja1.isNone && (load_models oc s).1.ja2.isNone &&
        (load_models oc s).1.multi.isNone) = false := Bool.eq_false_iff.mpr hall
    have hcc : classify_comments env flag oc s comments =
        ((load_models oc s).1,
         comments.map (fun c =>
           { c with sentiment := some (classify_comment env (load_models oc s).1 (c.text.getD "")) }),
         none) := by
      simp only [classify_comments, hb]
      rfl
    refine ⟨?_, by simp [hcc], fun e1 e2 e3 _ => ?_⟩
    · rw [hcc]
      constructor
      · intro hh; exact absurd hh (by simp)
      · rintro ⟨e1, e2, e3, _⟩
        rw [e1, e2, e3] at hb
        simp at hb
    · rw [e1, e2, e3] at hb
      simp at hb

/-- Witness for C6: with every backend failed to load and the fallback flag off,
the batch call raises. -/
theorem C6_witness :
    ((classify_comments ⟨id, id, fun _ _ => false, fun _ => .error ()⟩ false
        ⟨none, none, none⟩ ⟨none, none, none⟩ [⟨some "hi", none⟩]).2.2.isSome = true) := by
  exact (C6_batch_failure_atomic ⟨id, id, fun _ _ => false, fun _ => .error ()⟩ false
    ⟨none, none, none⟩ ⟨none, none, none⟩ [⟨some "hi", none⟩]).1.mpr ⟨rfl, rfl, rfl, rfl⟩

/-- Claim C7: for every input text that is empty, whitespace-only, or empty after
preprocessing, `classify_comment` returns exactly `{0.33, 0.33, 0.34}` tagged
`"unknown"`, independently of the language-detection and `re.search` oracles and of
the loaded backends (i.e. without consulting detection, inference, or adjustment). -/
theorem C7_empty_short_circuit (env env' : Env) (m : Models) (text : String)
    (hUrl : env'.subUrl = env.subUrl) (hTag : env'.subTag = env.subTag)
    (h : text.toList.all Char.isWhitespace = true ∨ preprocess_text env text = "") :
    classify_comment env' m text = ⟨⟨0.33, 0.33, 0.34⟩, "unknown"⟩ := by
  have hpre : preprocess_text env' text = preprocess_text env text := by
    unfold preprocess_text
    rw [hUrl, hTag]
  simp only [classify_comment, hpre]
  rcases h with h | h
  · rw [if_pos h]
  · by_cases hw : text.toList.all Char.isWhitespace = true
    · rw [if_pos hw]
    · rw [if_neg hw, if_pos h]

/-- Witness for C7 at the whitespace-only text `"   "`. -/
theorem C7_witness :
    classify_comment ⟨id, id, fun _ _ => false, fun _ => .error ()⟩
      ⟨none, none, none⟩ "   " = ⟨⟨0.33, 0.33, 0.34⟩, "unknown"⟩ := by
  exact C7_empty_short_circuit ⟨id, id, fun _ _ => false, fun _ => .error ()⟩
    ⟨id, id, fun _ _ => false, fun _ => .error ()⟩ ⟨none, none, none⟩ "   "
    rfl rfl (Or.inl (by decide))

/-- Claim C9: whenever the positive-word hit count is at least the negative-word hit
count (including zero hits on both sides), `_rule_based_classify` answers `"pos"` and
the no-backend fallback of `_pytorch_inference` produces `{0.6, 0.15, 0.25}`; moreover
the fallback never produces a neutral-dominant distribution for any text. -/
theorem C9_rule_fallback_positive_bias (text lang : String) :
    ((NEGATIVE_WORDS.countP (fun w => containsSub (toLowerStr text) w || containsSub text w) ≤
        POSITIVE_WORDS.countP (fun w => containsSub (toLowerStr text) w || containsSub text w) →
      rule_based_classify text = "pos" ∧
      pytorch_inference ⟨none, none, none⟩ text lang = ⟨0.6, 0.15, 0.25⟩)) ∧
    ((pytorch_inference ⟨none, none, none⟩ text lang).neutral <
       (pytorch_inference ⟨none, none, none⟩ text lang).positive ∨
     (pytorch_inference ⟨none, none, none⟩ text lang).neutral <
       (pytorch_inference ⟨none, none, none⟩ text lang).negative) := by
  have hinf : pytorch_inference ⟨none, none, none⟩ text lang = rule_fallback_scores text := by
    by_cases hl : lang = "ja" <;> simp [pytorch_inference, single_model_inference, hl]
  constructor
  · intro h
    have hcl : rule_based_classify text = "pos" := by
      simp only [rule_based_classify]
      rw [if_pos h]
    refine ⟨hcl, ?_⟩
    rw [hinf]
    simp only [rule_fallback_scores]
    rw [if_pos hcl]
  · rw [hinf]
    simp only [rule_fallback_scores]
    by_cases hcl : rule_based_classify text = "pos"
    · rw [if_pos hcl]; left; norm_num
    · rw [if_neg hcl]; right; norm_num

/-- Witness for C9 at the empty text (zero hits in both lexicons). -/
theorem C9_witness :
    rule_based_classify "" = "pos" ∧
    pytorch_inference ⟨none, none, none⟩ "" "ja" = ⟨0.6, 0.15, 0.25⟩ := by
  exact (C9_rule_fallback_positive_bias "" "ja").1 (by decide)

/-- Claim C8: for the base distribution `{0.6, 0.2, 0.2}` and every text whose
strong-positive lexicon hit count is at least 1 and which contains a negation word,
the rule-adjusted negative slot strictly exceeds the base negative slot `0.2`. -/
theorem C8_negation_boosts_negative (env : Env) (text : String)
    (hpos : 1 ≤ strong_pos_count text) (hneg : has_negation text = true) :
    (0.2 : ℚ) < (adjust_sentiment_with_rules env text ⟨0.6, 0.2, 0.2⟩).negative := by
  obtain h1 | h1 | h1 : strong_neg_count text = 0 ∨ strong_neg_count text = 1 ∨
      2 ≤ strong_neg_count text := by omega
  all_goals
    cases hs : sarcasm_found env text <;> cases hr : rhetorical_found env text <;>
      norm_num [adjust_sentiment_with_rules, min_def, max_def, h1, hs, hr, hpos, hneg]

set_option maxRecDepth 8000 in
/-- Witness for C8 at the text `"good ない"` (one positive hit, one negation word). -/
theorem C8_witness :
    (0.2 : ℚ) <
      (adjust_sentiment_with_rules ⟨id, id, fun _ _ => false, fun _ => .error ()⟩
        "good ない" ⟨0.6, 0.2, 0.2⟩).negative := by
  exact C8_negation_boosts_negative ⟨id, id, fun _ _ => false, fun _ => .error ()⟩
    "good ない" (by decide) (by decide)

/-- The common application/renormalisation tail of the two adjustment formulations:
the source floors neutral at 0 (its neutral adjustment is the constant 0), the spec
clamps neutral to `[0, 1]`; for a base neutral ≤ 1 and equal accumulators the two
agree, including the degenerate zero-total case. -/
lemma adjust_tail_congr (p n u nA pA nA' pA' : ℚ) (hu : u ≤ 1)
    (hn : nA = nA') (hp : pA = pA') :
    (if 0 < max (min (p + pA) 1) 0 + max (min (n + nA) 1) 0 + max (u + 0) 0 then
       (⟨max (min (p + pA) 1) 0 / (max (min (p + pA) 1) 0 + max (min (n + nA) 1) 0 + max (u + 0) 0),
         max (min (n + nA) 1) 0 / (max (min (p + pA) 1) 0 + max (min (n + nA) 1) 0 + max (u + 0) 0),
         max (u + 0) 0 / (max (min (p + pA) 1) 0 + max (min (n + nA) 1) 0 + max (u + 0) 0)⟩ : Scores)
     else ⟨max (min (p + pA) 1) 0, max (min (n + nA) 1) 0, max (u + 0) 0⟩) =
    (if max (min (p + pA') 1) 0 + max (min (n + nA') 1) 0 + max (min u 1) 0 = 0 then
       (⟨0, 0, 0⟩ : Scores)
     else
       ⟨max (min (p + pA') 1) 0 /
          (max (min (p + pA') 1) 0 + max (min (n + nA') 1) 0 + max (min u 1) 0),
        max (min (n + nA') 1) 0 /
          (max (min (p + pA') 1) 0 + max (min (n + nA') 1) 0 + max (min u 1) 0),
        max (min u 1) 0 /
          (max (min (p + pA') 1) 0 + max (min (n + nA') 1) 0 + max (min u 1) 0)⟩) := by
  subst hn hp
  rw [add_zero, min_eq_left hu]
  set cp := max (min (p + pA) 1) 0 with hcp
  set cn := max (min (n + nA) 1) 0 with hcn
  set cu := max u 0 with hcu
  have h0p : (0 : ℚ) ≤ cp := le_max_right _ _
  have h0n : (0 : ℚ) ≤ cn := le_max_right _ _
  have h0u : (0 : ℚ) ≤ cu := le_max_right _ _
  by_cases hT : cp + cn + cu = 0
  · have hcp0 : cp = 0 := by linarith
    have hcn0 : cn = 0 := by linarith
    have hcu0 : cu = 0 := by linarith
    rw [if_pos hT, if_neg (by rw [hT]; exact lt_irrefl 0), hcp0, hcn0, hcu0]
  · have hTpos : 0 < cp + cn + cu := lt_of_le_of_ne (by linarith) (Ne.symm hT)
    rw [if_pos hTpos, if_neg hT]

set_option maxHeartbeats 3200000 in
/-- Claim C3: on every text and every base distribution (slots with neutral ≤ 1, as
any distribution's are), `_adjust_sentiment_with_rules` computes exactly the
spec-described policy `adjust_sentiment_spec`: the accumulated rule adjustments,
clamped to `[-0.3, 0.3]`, applied with per-slot clamping to `[0, 1]`, renormalised to
sum 1, left all-zero when the total is 0. -/
theorem C3_adjustment_matches_spec (env : Env) (text : String) (scores : Scores)
    (hu : scores.neutral ≤ 1) :
    adjust_sentiment_with_rules env text scores = adjust_sentiment_spec env text scores := by
  simp only [adjust_sentiment_with_rules, adjust_sentiment_spec]
  refine adjust_tail_congr scores.positive scores.negative scores.neutral _ _ _ _ hu ?_ ?_ <;>
    generalize strong_neg_count text = nc <;>
    generalize strong_pos_count text = pc <;>
    cases sarcasm_found env text <;> cases rhetorical_found env text <;>
      cases has_negation text <;>
      simp only [Bool.false_eq_true, Bool.true_eq_false, eq_self_iff_true, and_true,
        and_false, if_true, if_false, true_and, false_and] <;>
      split_ifs <;> first | (exfalso; omega) | norm_num

/-- Witness for C3 at the empty text and the balanced base distribution. -/
theorem C3_witness :
    adjust_sentiment_with_rules ⟨id, id, fun _ _ => false, fun _ => .error ()⟩ ""
        ⟨0.33, 0.33, 0.34⟩ =
      adjust_sentiment_spec ⟨id, id, fun _ _ => false, fun _ => .error ()⟩ ""
        ⟨0.33, 0.33, 0.34⟩ := by
  exact C3_adjustment_matches_spec ⟨id, id, fun _ _ => false, fun _ => .error ()⟩ ""
    ⟨0.33, 0.33, 0.34⟩ (by norm_num)

/-- The adjustment engine yields a valid distribution whenever the base neutral
slot is positive. -/
lemma validDist_adjust (env : Env) (text : String) (s : Scores) (hu0 : 0 < s.neutral) :
    ValidDist (adjust_sentiment_with_rules env text s) := by
  simp only [adjust_sentiment_with_rules]
  exact validDist_tail s.positive s.negative s.neutral _ _ hu0

/-- Claim C4: for every input text, the distribution returned by `classify_comment`
(model-inference, ensemble, rule-fallback or empty-text path, under backends whose
successful outputs are probability vectors) and by the rules-only classification has
all three slots in `[0, 1]` and slots summing to 1 within tolerance 0.01. -/
theorem C4_distribution_invariant (env : Env) (m : Models) (text : String)
    (h : ModelsValid m) :
    ValidDist (classify_comment env m text).scores ∧
    ValidDist (classify_comment_rules_only env text).scores := by
  constructor
  · simp only [classify_comment]
    by_cases h1 : (List.all text.toList Char.isWhitespace) = true
    · rw [if_pos h1]; exact validDist_balanced
    · rw [if_neg h1]
      by_cases h2 : preprocess_text env text = ""
      · rw [if_pos h2]; exact validDist_balanced
      · rw [if_neg h2]
        exact validDist_pytorch m _ _ h
  · simp only [classify_comment_rules_only]
    by_cases h1 : (List.all text.toList Char.isWhitespace) = true
    · rw [if_pos h1]; exact validDist_balanced
    · rw [if_neg h1]
      by_cases h2 : preprocess_text env text = ""
      · rw [if_pos h2]; exact validDist_balanced
      · rw [if_neg h2]
        refine validDist_adjust env _ (rule_fallback_scores _) ?_
        unfold rule_fallback_scores
        split_ifs <;> norm_num

/-- Witness for C4 with no backend loaded (fallback paths) at the text `"a"`. -/
theorem C4_witness :
    ModelsValid ⟨none, none, none⟩ ∧
    (ValidDist (classify_comment ⟨id, id, fun _ _ => false, fun _ => .error ()⟩
        ⟨none, none, none⟩ "a").scores ∧
     ValidDist (classify_comment_rules_only ⟨id, id, fun _ _ => false, fun _ => .error ()⟩
        "a").scores) := by
  have hm : ModelsValid ⟨none, none, none⟩ := by
    unfold ModelsValid
    refine ⟨?_, ?_, ?_⟩ <;> intro f hf <;> cases hf
  exact ⟨hm, C4_distribution_invariant ⟨id, id, fun _ _ => false, fun _ => .error ()⟩
    ⟨none, none, none⟩ "a" hm⟩

set_option maxRecDepth 8000 in
/-- Claim C1 counterexample: for the text `"bad"` (one strong-negative hit) and a
loaded multilingual backend answering `{0.5, 0.3, 0.2}`, `classify_comment` returns
the model distribution unchanged, yet the rule-adjustment engine applied to that
distribution yields a different one — so the model path does not apply the
rule-adjustment engine before returning, contrary to the claim. -/
theorem C1_counterexample :
    classify_comment ⟨id, id, fun _ _ => false, fun _ => .error ()⟩
        ⟨none, none, some (fun _ => some ⟨0.5, 0.3, 0.2⟩)⟩ "bad"
      = ⟨⟨0.5, 0.3, 0.2⟩, "other"⟩ ∧
    adjust_sentiment_with_rules ⟨id, id, fun _ _ => false, fun _ => .error ()⟩ "bad"
        ⟨0.5, 0.3, 0.2⟩ ≠ ⟨0.5, 0.3, 0.2⟩ := by
  constructor
  · rfl
  · have h1 : strong_neg_count "bad" = 1 := by decide
    have h2 : strong_pos_count "bad" = 0 := by decide
    have h3 : has_negation "bad" = false := by decide
    have h4 : sarcasm_found ⟨id, id, fun _ _ => false, fun _ => .error ()⟩ "bad" = false := by
      decide
    have h5 : rhetorical_found ⟨id, id, fun _ _ => false, fun _ => .error ()⟩ "bad" = false := by
      decide
    have hne : (adjust_sentiment_with_rules ⟨id, id, fun _ _ => false, fun _ => .error ()⟩
        "bad" ⟨0.5, 0.3, 0.2⟩).negative = 0.45 := by
      norm_num [adjust_sentiment_with_rules, h1, h2, h3, h4, h5, min_def, max_def]
    intro hEq
    rw [hEq] at hne
    norm_num at hne

/-- Claim C1 amended: for text that survives both short-circuits, `classify_comment`
returns exactly the inference output of the preprocess → detect → infer pipeline,
with no rule adjustment applied on the model path; the rule-adjustment engine is
applied before returning only on the rules-only path
(`_classify_comment_rules_only`, used when no backend is available and fallback is
permitted). -/
theorem C1_pipeline_shape (env : Env) (m : Models) (text : String)
    (h1 : ¬ (List.all text.toList Char.isWhitespace = true))
    (h2 : preprocess_text env text ≠ "") :
    classify_comment env m text =
      ⟨pytorch_inference m (preprocess_text env text)
          (detect_language env (preprocess_text env text)),
        detect_language env (preprocess_text env text)⟩ ∧
    classify_comment_rules_only env text =
      ⟨adjust_sentiment_with_rules env (preprocess_text env text)
          (rule_fallback_scores (preprocess_text env text)),
        detect_language env (preprocess_text env text)⟩ := by
  constructor
  · simp only [classify_comment]
    rw [if_neg h1, if_neg h2]
  · simp only [classify_comment_rules_only]
    rw [if_neg h1, if_neg h2]

set_option maxRecDepth 8000 in
/-- Witness for C1's amended theorem at the text `"bad"`. -/
theorem C1_witness :
    classify_comment ⟨id, id, fun _ _ => false, fun _ => .error ()⟩ ⟨none, none, none⟩ "bad" =
      ⟨pytorch_inference ⟨none, none, none⟩
          (preprocess_text ⟨id, id, fun _ _ => false, fun _ => .error ()⟩ "bad")
          (detect_language ⟨id, id, fun _ _ => false, fun _ => .error ()⟩
            (preprocess_text ⟨id, id, fun _ _ => false, fun _ => .error ()⟩ "bad")),
        detect_language ⟨id, id, fun _ _ => false, fun _ => .error ()⟩
          (preprocess_text ⟨id, id, fun _ _ => false, fun _ => .error ()⟩ "bad")⟩ := by
  exact (C1_pipeline_shape ⟨id, id, fun _ _ => false, fun _ => .error ()⟩
    ⟨none, none, none⟩ "bad" (by decide) (by decide)).1

end YTSent
